import Mathlib

/-!
Verification development for the KeyIntentNER-T keyword pipeline (`app.py`).

The Python source is shallowly embedded as Lean definitions:
* numeric similarity scores are modelled as rationals (`ℚ`);
* the external NER model is a parameter `ner : String → Option (List (String × String))`
  (`none` models the model call raising an exception);
* the external sentence embedder is a parameter; a batch `encode` call that can raise is
  modelled as `List String → Option (List E)`;
* Python values that may be non-strings are modelled as `Option String`
  (`none` stands for any non-string value).

Definitions keep the names of the Python functions they embed.
-/

/-! ## Python string primitives used by `app.py` -/

/-- Characters stripped by Python `str.strip()` (ASCII whitespace). -/
def pyWhitespace (c : Char) : Bool :=
  c = ' ' || c = '\t' || c = '\n' || c = '\r' || c = '\x0b' || c = '\x0c'

/-- Python `s.strip()`: remove leading and trailing whitespace. -/
def pyStrip (s : String) : String :=
  String.mk (((s.data.dropWhile pyWhitespace).reverse.dropWhile pyWhitespace).reverse)

/-- Split a character list at every newline character, as Python `s.split('\n')` does. -/
def splitCharsOnNL : List Char → List (List Char)
  | [] => [[]]
  | '\n' :: cs => [] :: splitCharsOnNL cs
  | c :: cs =>
    match splitCharsOnNL cs with
    | [] => [[c]]
    | l :: ls => (c :: l) :: ls

/-- Python `s.split('\n')`. -/
def pySplitNL (s : String) : List String :=
  (splitCharsOnNL s.data).map String.mk

/-- Does `pat` start `hay`? (helper for Python substring containment). -/
def startsWithChars : List Char → List Char → Bool
  | [], _ => true
  | _ :: _, [] => false
  | a :: as, b :: bs => a == b && startsWithChars as bs

/-- Is `pat` a contiguous substring of `hay`? -/
def containsChars (pat : List Char) : List Char → Bool
  | [] => startsWithChars pat []
  | b :: t => startsWithChars pat (b :: t) || containsChars pat t

/-- Python `pat in hay` on strings (substring containment). -/
def pyContains (hay pat : String) : Bool :=
  containsChars pat.data hay.data

/-- Python `s.lower()` (ASCII case folding, which covers every trigger phrase). -/
def pyLower (s : String) : String :=
  String.mk (s.data.map Char.toLower)

/-! ## Intent Classifier: `sort_by_keyword_feature` (app.py lines 118-184) -/

/-- Trigger phrases of the informational intent group (verbatim from the source). -/
def informational_keywords : List String := [
  "advice", "help", "how do i", "how does", "how to", "ideas", "information", "tools", "list",
  "resources", "tips", "tutorial", "diy", "ways to", "what does", "what is", "what was",
  "where are", "where does", "where can", "where is", "where was", "when is", "when are",
  "when was", "where to", "who is", "who said", "who wrote", "who are", "why are", "who was",
  "why is", "examples", "explained", "meaning of", "definition", "benefits of", "uses of",
  "overview", "summary", "report", "study", "analysis", "research", "insight", "data", "facts",
  "details", "background", "context", "news", "history", "documentation", "article", "paper",
  "blog", "forum", "discussion", "commentary", "opinion", "perspective", "viewpoint", "guide",
  "difference between", "types of"]

/-- Trigger phrases of the navigational intent group (verbatim from the source). -/
def navigational_keywords : List String := [
  "facebook", "meta", "twitter", "site", "login", "account", "official website", "homepage",
  "portal", "signin", "register", "signup", "dashboard", "profile", "settings", "control panel",
  "main page", "user area", "admin", "control", "access", "entry", "webpage", "navigate", "home",
  "site map", "directory", "find", "search", "lookup", "index", "online", "internet", "web",
  "browser", "navigate to", "goto", "landing page", "url", "hyperlink", "link", "web address",
  "navigate", "web navigation", "website address", "app", "download", "status", "join"]

/-- Trigger phrases of the local intent group (verbatim from the source). -/
def local_keywords : List String := [
  "closest", "close", "near me", "my area", "residential", "my zip", "my city", "nearby",
  "in town", "around here", "local", "near", "vicinity", "local area", "nearest", "surrounding",
  "within miles", "in my neighborhood", "district", "zone", "region", "near my location",
  "local services", "community", "local shop", "in my vicinity", "local store", "suburb",
  "urban area", "within walking distance", "around my place", "within my reach", "close by",
  "local office", "local branch", "near me now", "in my locale", "within the city",
  "local market", "in my town", "local spot", "local point", "local guide", "near my house",
  "local venue", "close to me", "within blocks", "local attractions", "local events", "address"]

/-- Trigger phrases of the commercial-investigation intent group (verbatim from the source). -/
def commercial_keywords : List String := [
  "best", "affordable", "budget", "cheap", "expensive", "review", "top", "service", "cost",
  "average cost", "calculator", "provider", "company", "vs", "companies", "professional",
  "specialist", "compare", "comparison", "rating", "testimonials", "recommendation", "advisor",
  "consultant", "expert", "ranking", "leader", "top-rated", "best-selling", "trending",
  "featured", "highlighted", "recommended", "popular", "favorite", "preferred", "choice",
  "most reviewed", "highest rated", "highly recommended", "award-winning", "five-star",
  "customer favorite", "top pick", "critically acclaimed", "editor\x27s choice",
  "people\x27s choice", "top performer", "best value", "best overall", "best quality",
  "best price", "most trusted", "leading brand", "popular choice", "most popular", "fees",
  "pros and cons"]

/-- Trigger phrases of the transactional intent group (verbatim from the source). -/
def transactional_keywords : List String := [
  "price", "quotes", "pricing", "purchase", "rates", "how much", "same day", "same-day", "buy",
  "order", "discount", "deal", "offers", "sale", "checkout", "book", "reservation", "reserve",
  "bargain", "coupon", "promo", "rebate", "clearance", "markdown", "buy one get one", "bogo",
  "special", "exclusive", "bundle", "package", "subscription", "membership", "payment",
  "installment", "financing", "contract", "billing", "invoice", "ticket", "admission", "entry",
  "enrollment", "register", "sign up", "pre-order", "e-commerce", "shopping cart"]

/-- Does any phrase of `phrases` occur as a substring of `f`?
Embeds Python `any(keyword in f for keyword in phrases)`. -/
def anyPhraseIn (f : String) (phrases : List String) : Bool :=
  phrases.any (fun p => pyContains f p)

/-- Embedding of `sort_by_keyword_feature` (app.py lines 118-184).
A non-string Python argument is modelled as `none`; the source returns `"other"` for it. -/
def sort_by_keyword_feature (f : Option String) : String :=
  match f with
  | none => "other"
  | some s =>
    let f := pyLower s
    if anyPhraseIn f informational_keywords then "informational"
    else if anyPhraseIn f navigational_keywords then "navigational"
    else if anyPhraseIn f local_keywords then "local"
    else if anyPhraseIn f commercial_keywords then "commercial investigation"
    else if anyPhraseIn f transactional_keywords then "transactional"
    else "other"

/-- The closed enumeration of intent labels from the specification data model. -/
inductive IntentLabel : Type
  | informational
  | navigational
  | local
  | commercial_investigation
  | transactional
  | other
deriving DecidableEq

/-- The string the source code uses for each intent label. -/
def IntentLabel.labelString : IntentLabel → String
  | .informational => "informational"
  | .navigational => "navigational"
  | .local => "local"
  | .commercial_investigation => "commercial investigation"
  | .transactional => "transactional"
  | .other => "other"

/-! ## Entity Extractor Adapter: `extract_entities` (app.py lines 85-91) -/

/-- An element of the list returned by `extract_entities`: either a real entity pair
`(ent.text, ent.label_)` or one of the string sentinels. -/
inductive EntityItem : Type
  | ent (text label : String)
  | msg (s : String)
deriving DecidableEq

/-- Embedding of `extract_entities` (app.py lines 85-91).
The external GLiNER/spaCy call is the parameter `ner`; `ner text = none` models the call
raising an exception, which the adapter catches. -/
def extract_entities (ner : String → Option (List (String × String))) (text : String) :
    List EntityItem :=
  match ner text with
  | none => [EntityItem.msg "Error extracting entities"]
  | some entities =>
    if entities.isEmpty then [EntityItem.msg "No specific entities found"]
    else entities.map (fun e => EntityItem.ent e.1 e.2)

/-- Formatting of one entity item inside `batch_process_keywords` (app.py lines 212-216):
a tuple renders as `"text (label)"`, anything else renders via `str`. -/
def entityItemString : EntityItem → String
  | .ent t l => t ++ " (" ++ l ++ ")"
  | .msg s => s

/-! ## Topic Matcher: `perform_topic_modeling_from_similarities` (app.py lines 102-115) -/

/-- Index comparison used to model `numpy.argsort` on the similarity vector: ascending by
value, ties broken by index (a stable argsort; the claims below never depend on tie order). -/
def argRel (sims : List ℚ) (i j : ℕ) : Prop :=
  sims.getD i 0 < sims.getD j 0 ∨ (sims.getD i 0 = sims.getD j 0 ∧ i ≤ j)

instance argRel_decidable (sims : List ℚ) : DecidableRel (argRel sims) := fun _ _ => by
  unfold argRel; infer_instance

instance argRel_total (sims : List ℚ) : IsTotal ℕ (argRel sims) := ⟨by
  intro i j
  unfold argRel
  rcases lt_trichotomy (sims.getD i 0) (sims.getD j 0) with h | h | h
  · exact Or.inl (Or.inl h)
  · rcases Nat.le_total i j with hij | hij
    · exact Or.inl (Or.inr ⟨h, hij⟩)
    · exact Or.inr (Or.inr ⟨h.symm, hij⟩)
  · exact Or.inr (Or.inl h)⟩

instance argRel_trans (sims : List ℚ) : IsTrans ℕ (argRel sims) := ⟨by
  intro a b c hab hbc
  unfold argRel at hab hbc ⊢
  rcases hab with h1 | ⟨e1, l1⟩ <;> rcases hbc with h2 | ⟨e2, l2⟩
  · exact Or.inl (h1.trans h2)
  · exact Or.inl (by rw [← e2]; exact h1)
  · exact Or.inl (by rw [e1]; exact h2)
  · exact Or.inr ⟨e1.trans e2, l1.trans l2⟩⟩

/-- Model of `similarities.argsort()`: the indices `0, ..., n-1` sorted ascending by value. -/
def argsortAsc (sims : List ℚ) : List ℕ :=
  List.insertionSort (argRel sims) (List.range sims.length)

/-- Model of `similarities.argsort()[-3:][::-1]` (app.py line 105): Python `[-3:]` keeps the
last `min 3 n` entries, i.e. drops `n - 3`, and `[::-1]` reverses. -/
def topIndices (sims : List ℚ) : List ℕ :=
  ((argsortAsc sims).drop (sims.length - 3)).reverse

/-- Body of `perform_topic_modeling_from_similarities` after `top_indices` is computed
(app.py lines 107-115).  A missing index (fewer than two top indices, or an index outside
`categories`) raises `IndexError` in Python, which the enclosing `except` turns into the
`"Error in topic modeling"` sentinel. -/
def perform_topic_modeling_pick (categories : List String) (similarities : List ℚ)
    (top : List ℕ) : String :=
  match top with
  | i0 :: i1 :: _ =>
    match categories[i0]?, categories[i1]?, similarities[i0]?, similarities[i1]? with
    | some best, some second, some s0, some s1 =>
      if s1 * (11/10) < s0 then best else best ++ " , " ++ second
    | _, _, _, _ => "Error in topic modeling"
  | _ => "Error in topic modeling"

/-- Embedding of `perform_topic_modeling_from_similarities` (app.py lines 102-115). -/
def perform_topic_modeling_from_similarities (categories : List String)
    (similarities : List ℚ) : String :=
  perform_topic_modeling_pick categories similarities (topIndices similarities)

/-! ## Batch Orchestrator: `batch_process_keywords` (app.py lines 187-228) and
`handle_keyword_processing` (app.py lines 429-436) -/

/-- The columnar result dictionary `processed_data` of `batch_process_keywords`
(app.py line 188). -/
structure ProcessedData where
  keywords : List String
  intent : List String
  nerEntities : List String
  googleContentTopics : List String
deriving DecidableEq

/-- Python slicing loop `for i in range(0, len(keywords), batch_size)` with
`batch = keywords[i:i+batch_size]` (app.py lines 194-196), as successive chunks.
The first argument is the batch size, the second a fuel bounded below by the list length
(each step consumes at least one element when the batch size is at least 1; Python raises
`ValueError` on step 0, so the fuel-exhausted arm is unreachable under that precondition). -/
def chunksOfAux {α : Type} (b : ℕ) : ℕ → List α → List (List α)
  | _, [] => []
  | 0, _ :: _ => []
  | fuel + 1, x :: xs => (x :: xs).take b :: chunksOfAux b fuel ((x :: xs).drop b)

/-- The batches `keywords[0:b], keywords[b:2b], ...` of the orchestrator loop. -/
def chunksOf {α : Type} (b : ℕ) (l : List α) : List (List α) :=
  chunksOfAux b l.length l

/-- Body of the orchestrator loop (app.py lines 194-223), one iteration per batch.
Two statements of the body can raise, and both exceptions are caught only by the outer
`except` at line 225, which returns the data accumulated so far (the loop is abandoned):
the sentence model's batched `encode` at line 198 (modelled by `encode batch = none`), and
sklearn's `cosine_similarity` at line 203, whose input validation raises `ValueError`
whenever either argument matrix is empty — in particular whenever the Taxonomy Store is
empty, since `category_embeddings` is then the empty array.  The remaining statements of
the body (intent, entity formatting, topic) catch their own failures internally and the
four `extend`s (lines 206-220) all happen after every failure-prone computation. -/
def runBatches {E : Type} (encode : List String → Option (List E)) (cossim : E → E → ℚ)
    (ner : String → Option (List (String × String))) (categories : List String)
    (category_embeddings : List E) : List (List String) → ProcessedData → ProcessedData
  | [], acc => acc
  | batch :: rest, acc =>
    match encode batch with
    | none => acc
    | some batch_embeddings =>
      let intents := batch.map (fun kw => sort_by_keyword_feature (some kw))
      let entities := batch.map (fun kw => extract_entities ner kw)
      -- app.py line 203: `cosine_similarity` raises `ValueError` on an empty input matrix
      -- (sklearn input validation); the exception propagates to the `except` at line 225.
      if category_embeddings.isEmpty || batch_embeddings.isEmpty then acc
      else
        let similarities := batch_embeddings.map (fun e => category_embeddings.map
          (fun ce => cossim e ce))
        let topics := similarities.map (fun sim =>
          perform_topic_modeling_from_similarities categories sim)
        let processed_entities := entities.map (fun entity_list =>
          String.intercalate ", " (entity_list.map entityItemString))
        runBatches encode cossim ner categories category_embeddings rest
          { keywords := acc.keywords ++ batch,
            intent := acc.intent ++ intents,
            nerEntities := acc.nerEntities ++ processed_entities,
            googleContentTopics := acc.googleContentTopics ++ topics }

/-- Embedding of `batch_process_keywords` (app.py lines 187-228).
`load_sentence_model = none` models `get_sentence_model()` raising at line 191 (caught at
line 225, returning the still-empty dictionary).  `compute_category_embeddings`
(lines 94-99) catches its own failures and returns `[]`, modelled by `Option.getD`;
similarly `load_google_categories` (lines 66-74) never raises and may yield `[]`. -/
def batch_process_keywords {E : Type} (load_sentence_model : Option (List String → Option (List E)))
    (cossim : E → E → ℚ) (ner : String → Option (List (String × String)))
    (categories : List String) (keywords : List String) (batch_size : ℕ) : ProcessedData :=
  match load_sentence_model with
  | none => ⟨[], [], [], []⟩
  | some encode =>
    let category_embeddings := (encode categories).getD []
    runBatches encode cossim ner categories category_embeddings
      (chunksOf batch_size keywords) ⟨[], [], [], []⟩

/-- Input normalization of `handle_keyword_processing` (app.py line 433):
`[kw.strip() for kw in keyword_input.split('\n')[:100] if kw.strip()]`.
Note that the `[:100]` cap is applied to the raw lines, before blank lines are dropped. -/
def normalized_keywords (keyword_input : String) : List String :=
  ((pySplitNL keyword_input).take 100).filterMap (fun kw =>
    if pyStrip kw = "" then none else some (pyStrip kw))

/-- Stated from the specification's words, for comparison with the code's
`normalized_keywords`: "trims each line, drops empty lines, truncates to the first 100
survivors, preserving order". -/
def spec_normalized_keywords (keyword_input : String) : List String :=
  (((pySplitNL keyword_input).map pyStrip).filter (fun k => k ≠ "")).take 100

/-- Embedding of `handle_keyword_processing` (app.py lines 429-436), restricted to the
`processed-data` component of the returned tuple: `none` models the guard branch that
performs no processing (`n_clicks is None or not keyword_input`).  The call at line 434
uses the default batch size 8. -/
def handle_keyword_processing {E : Type}
    (load_sentence_model : Option (List String → Option (List E))) (cossim : E → E → ℚ)
    (ner : String → Option (List (String × String))) (categories : List String)
    (n_clicks : Option ℕ) (keyword_input : String) : Option ProcessedData :=
  if n_clicks = none ∨ keyword_input = "" then none
  else some (batch_process_keywords load_sentence_model cossim ner categories
    (normalized_keywords keyword_input) 8)

/-- An embedder that encodes a batch by encoding each text independently and never raises;
this is the Text Embedder contract of the specification (vectors returned in input order). -/
def perTextEncode {E : Type} (embed : String → E) : List String → Option (List E) :=
  fun texts => some (texts.map embed)

/-- The entity column entry produced for one keyword. -/
def nerRowString (ner : String → Option (List (String × String))) (kw : String) : String :=
  String.intercalate ", " ((extract_entities ner kw).map entityItemString)

/-- The topic column entry produced for one keyword under a per-text embedder. -/
def topicRowString {E : Type} (embed : String → E) (cossim : E → E → ℚ)
    (categories : List String) (category_embeddings : List E) (kw : String) : String :=
  perform_topic_modeling_from_similarities categories
    (category_embeddings.map (fun ce => cossim (embed kw) ce))

/-- A raw multi-line input whose first line is blank, followed by 100 non-empty lines. -/
def c1_raw_input : String :=
  String.intercalate "\n" ("" :: List.replicate 100 "kw")

/-- A batched embedder that raises on any batch containing the text `"BAD"` and otherwise
encodes per text (used to exercise the orchestrator's exception path). -/
def failingEncode : List String → Option (List Unit) :=
  fun texts => if texts.contains "BAD" then none else some (texts.map (fun _ => ()))

/-- Keywords for the C9 witness run: extraction fails exactly at position 1. -/
def c9_keywords : List String := ["how to fix sink", "badkeyword", "best plumber"]

/-- Extractor for the C9 witness run: raises exactly on `"badkeyword"`. -/
def c9_ner : String → Option (List (String × String)) :=
  fun s => if s = "badkeyword" then none else some [("sink", "product")]

/-! ## Claim C3 -/

/-- C3: `sort_by_keyword_feature` checks the five trigger lists in the fixed order
informational, navigational, local, commercial-investigation, transactional, as substring
matches on the lower-cased keyword, first hit winning; `"best local plumber near me"`
hits both the local and the commercial lists and is classified `"local"` because the
local list is checked before the commercial list. -/
theorem C3_intent_priority_order :
    (∀ s : String,
      sort_by_keyword_feature (some s) =
        (if anyPhraseIn (pyLower s) informational_keywords then "informational"
         else if anyPhraseIn (pyLower s) navigational_keywords then "navigational"
         else if anyPhraseIn (pyLower s) local_keywords then "local"
         else if anyPhraseIn (pyLower s) commercial_keywords then "commercial investigation"
         else if anyPhraseIn (pyLower s) transactional_keywords then "transactional"
         else "other")) ∧
    anyPhraseIn "best local plumber near me" local_keywords = true ∧
    anyPhraseIn "best local plumber near me" commercial_keywords = true ∧
    anyPhraseIn "best local plumber near me" informational_keywords = false ∧
    anyPhraseIn "best local plumber near me" navigational_keywords = false ∧
    sort_by_keyword_feature (some "best local plumber near me") = "local" := by
  refine ⟨fun s => rfl, ?_, ?_, ?_, ?_, ?_⟩ <;> decide

/-! ## Claim C4 -/

/-- C4: the intent classifier is total and deterministic; every input (including the
non-string input `none` and keywords matching no trigger list, both of which yield
`"other"`) is mapped to the string of one of the six labels of the closed enumeration. -/
theorem C4_intent_total_closed_enum :
    (∀ f : Option String, ∃ l : IntentLabel, sort_by_keyword_feature f = l.labelString) ∧
    sort_by_keyword_feature none = "other" ∧
    (∀ s : String,
      anyPhraseIn (pyLower s) informational_keywords = false →
      anyPhraseIn (pyLower s) navigational_keywords = false →
      anyPhraseIn (pyLower s) local_keywords = false →
      anyPhraseIn (pyLower s) commercial_keywords = false →
      anyPhraseIn (pyLower s) transactional_keywords = false →
      sort_by_keyword_feature (some s) = "other") := by
  refine ⟨?_, rfl, ?_⟩
  · intro f
    match f with
    | none => exact ⟨IntentLabel.other, rfl⟩
    | some s =>
      simp only [sort_by_keyword_feature]
      split
      · exact ⟨IntentLabel.informational, rfl⟩
      · split
        · exact ⟨IntentLabel.navigational, rfl⟩
        · split
          · exact ⟨IntentLabel.local, rfl⟩
          · split
            · exact ⟨IntentLabel.commercial_investigation, rfl⟩
            · split
              · exact ⟨IntentLabel.transactional, rfl⟩
              · exact ⟨IntentLabel.other, rfl⟩
  · intro s h1 h2 h3 h4 h5
    simp only [sort_by_keyword_feature, h1, h2, h3, h4, h5, Bool.false_eq_true, if_false]

/-- C4 witness: the theorem applied at the concrete inputs `none` and `"zzz"`
(a keyword matching no trigger list). -/
theorem C4_intent_total_closed_enum_witness :
    (∃ l : IntentLabel, sort_by_keyword_feature (some "zzz") = l.labelString) ∧
    sort_by_keyword_feature none = "other" ∧
    sort_by_keyword_feature (some "zzz") = "other" :=
  ⟨C4_intent_total_closed_enum.1 (some "zzz"), C4_intent_total_closed_enum.2.1,
    C4_intent_total_closed_enum.2.2 "zzz" (by decide) (by decide) (by decide) (by decide)
      (by decide)⟩

/-! ## Claim C5 -/

/-- C5: the entity-extractor adapter never produces an empty or null result: a successful
call with zero entities yields the single-element "no entities found" sentinel, a failing
call yields the single-element "extraction error" sentinel, and the two sentinels differ. -/
theorem C5_entity_adapter_sentinels :
    ∀ (ner : String → Option (List (String × String))) (text : String),
      extract_entities ner text ≠ [] ∧
      (ner text = some [] →
        extract_entities ner text = [EntityItem.msg "No specific entities found"]) ∧
      (ner text = none →
        extract_entities ner text = [EntityItem.msg "Error extracting entities"]) ∧
      EntityItem.msg "No specific entities found" ≠ EntityItem.msg "Error extracting entities" := by
  intro ner text
  refine ⟨?_, ?_, ?_, by decide⟩
  · unfold extract_entities
    match h : ner text with
    | none => simp
    | some entities =>
      match entities with
      | [] => simp
      | e :: es => simp [List.isEmpty]
  · intro h; simp [extract_entities, h, List.isEmpty]
  · intro h; simp [extract_entities, h]

/-- C5 witness: the theorem applied to one extractor that succeeds with zero entities and
one whose call fails. -/
theorem C5_entity_adapter_sentinels_witness :
    extract_entities (fun _ => some []) "plumber" = [EntityItem.msg "No specific entities found"] ∧
    extract_entities (fun _ => none) "plumber" = [EntityItem.msg "Error extracting entities"] :=
  ⟨(C5_entity_adapter_sentinels (fun _ => some []) "plumber").2.1 rfl,
    (C5_entity_adapter_sentinels (fun _ => none) "plumber").2.2.1 rfl⟩

/-- When index `i` carries the strict maximum of `sims` and index `j` the strict maximum
among the remaining indices, the top of the argsort is `i` followed by `j`. -/
lemma topIndices_cons_cons (sims : List ℚ) (i j : ℕ) (hn : 2 ≤ sims.length)
    (hi : i < sims.length) (hj : j < sims.length) (hij : i ≠ j)
    (hbest : ∀ k, k < sims.length → k ≠ i → sims.getD k 0 < sims.getD i 0)
    (hsecond : ∀ k, k < sims.length → k ≠ i → k ≠ j → sims.getD k 0 < sims.getD j 0) :
    ∃ rest, topIndices sims = i :: j :: rest := by
  have hperm : List.Perm (argsortAsc sims) (List.range sims.length) :=
    List.perm_insertionSort _ _
  have hsort : List.Pairwise (argRel sims) (argsortAsc sims) :=
    List.sorted_insertionSort _ _
  have hpr : (argsortAsc sims).reverse.Pairwise (fun a b => argRel sims b a) :=
    List.pairwise_reverse.mpr hsort
  have hRperm : List.Perm (argsortAsc sims).reverse (List.range sims.length) :=
    (List.reverse_perm _).trans hperm
  have hRlen : (argsortAsc sims).reverse.length = sims.length := by
    rw [hRperm.length_eq, List.length_range]
  have hne : (argsortAsc sims).reverse ≠ [] := by
    intro h; rw [h] at hRlen; simp at hRlen; omega
  obtain ⟨x, R1, hx⟩ := List.exists_cons_of_ne_nil hne
  have hR1len : R1.length = sims.length - 1 := by
    rw [hx] at hRlen; simp at hRlen; omega
  -- the head of the reversed sort is the strict argmax, namely i
  have hxmem : x ∈ List.range sims.length := by
    refine hRperm.mem_iff.mp ?_
    rw [hx]; exact List.mem_cons_self _ _
  have hxlt : x < sims.length := List.mem_range.mp hxmem
  have himem : i ∈ (argsortAsc sims).reverse := hRperm.mem_iff.mpr (List.mem_range.mpr hi)
  have hxi : x = i := by
    by_contra hne'
    have himem' : i ∈ R1 := by
      rw [hx] at himem
      rcases List.mem_cons.mp himem with h | h
      · exact absurd h.symm hne'
      · exact h
    have hrel : argRel sims i x := by
      rw [hx] at hpr
      exact List.rel_of_pairwise_cons hpr himem'
    have hlt : sims.getD x 0 < sims.getD i 0 := hbest x hxlt hne'
    unfold argRel at hrel
    rcases hrel with h | ⟨e, _⟩
    · exact absurd h (not_lt.mpr hlt.le)
    · rw [e] at hlt; exact lt_irrefl _ hlt
  subst hxi
  -- the rest of the reversed sort is a permutation of the remaining indices
  have hR1perm : List.Perm R1 ((List.range sims.length).erase x) := by
    rw [hx] at hRperm
    exact (List.cons_perm_iff_perm_erase.mp hRperm).2
  have hR1ne : R1 ≠ [] := by
    intro h; rw [h] at hR1len; simp at hR1len; omega
  obtain ⟨y, t2, hy⟩ := List.exists_cons_of_ne_nil hR1ne
  -- the second entry is the strict argmax of the rest, namely j
  have hjmem : j ∈ R1 := by
    have hjmem0 : j ∈ (argsortAsc sims).reverse :=
      hRperm.mem_iff.mpr (List.mem_range.mpr hj)
    rw [hx] at hjmem0
    rcases List.mem_cons.mp hjmem0 with h | h
    · exact absurd h.symm hij
    · exact h
  have hpr1 : R1.Pairwise (fun a b => argRel sims b a) := by
    rw [hx] at hpr
    exact hpr.of_cons
  have hymem_r : y ∈ (List.range sims.length).erase x := by
    refine hR1perm.mem_iff.mp ?_
    rw [hy]; exact List.mem_cons_self _ _
  obtain ⟨hyne_i, hymem⟩ :=
    (List.Nodup.mem_erase_iff (List.nodup_range sims.length)).mp hymem_r
  have hylt : y < sims.length := List.mem_range.mp hymem
  have hyj : y = j := by
    by_contra hne'
    have hjmem' : j ∈ t2 := by
      rw [hy] at hjmem
      rcases List.mem_cons.mp hjmem with h | h
      · exact absurd h.symm hne'
      · exact h
    have hrel : argRel sims j y := by
      rw [hy] at hpr1
      exact List.rel_of_pairwise_cons hpr1 hjmem'
    have hlt : sims.getD y 0 < sims.getD j 0 := hsecond y hylt hyne_i hne'
    unfold argRel at hrel
    rcases hrel with h | ⟨e, _⟩
    · exact absurd h (not_lt.mpr hlt.le)
    · rw [e] at hlt; exact lt_irrefl _ hlt
  subst hyj
  -- reassemble: the sorted list ends with [y, x] = [j, i], so the reversed top is i :: j :: _
  have ht2len : t2.length = sims.length - 2 := by
    rw [hy] at hR1len; simp at hR1len; omega
  have hL_eq : argsortAsc sims = (t2.reverse ++ [y]) ++ [x] := by
    have hrr : ((argsortAsc sims).reverse).reverse = argsortAsc sims :=
      List.reverse_reverse _
    rw [hx, hy] at hrr
    rw [← hrr]
    simp
  have hk1 : sims.length - 3 ≤ (t2.reverse ++ [y]).length := by
    simp [ht2len]; omega
  have hk2 : sims.length - 3 ≤ t2.reverse.length := by
    simp [ht2len]; omega
  refine ⟨(t2.reverse.drop (sims.length - 3)).reverse, ?_⟩
  unfold topIndices
  rw [hL_eq, List.drop_append_of_le_length hk1, List.drop_append_of_le_length hk2]
  simp

/-- Unfolding lemma for `perform_topic_modeling_pick` on a two-or-more element index list. -/
lemma perform_topic_modeling_pick_cons (cats : List String) (sims : List ℚ)
    (i0 i1 : ℕ) (rest : List ℕ) :
    perform_topic_modeling_pick cats sims (i0 :: i1 :: rest) =
      match cats[i0]?, cats[i1]?, sims[i0]?, sims[i1]? with
      | some best, some second, some s0, some s1 =>
        if s1 * (11/10) < s0 then best else best ++ " , " ++ second
      | _, _, _, _ => "Error in topic modeling" := rfl

/-- General margin rule of the Topic Matcher: with a strict best index `i` and a strict
second-best index `j`, the result is decided by the comparison `best > second * 1.1`. -/
lemma perform_topic_modeling_margin (cats : List String) (sims : List ℚ) (i j : ℕ)
    (hlen : sims.length = cats.length) (hn : 2 ≤ sims.length)
    (hi : i < sims.length) (hj : j < sims.length) (hij : i ≠ j)
    (hbest : ∀ k, k < sims.length → k ≠ i → sims.getD k 0 < sims.getD i 0)
    (hsecond : ∀ k, k < sims.length → k ≠ i → k ≠ j → sims.getD k 0 < sims.getD j 0) :
    perform_topic_modeling_from_similarities cats sims =
      (if sims.getD j 0 * (11/10) < sims.getD i 0 then cats.getD i ""
       else cats.getD i "" ++ " , " ++ cats.getD j "") := by
  obtain ⟨rest, htop⟩ := topIndices_cons_cons sims i j hn hi hj hij hbest hsecond
  have hci : i < cats.length := hlen ▸ hi
  have hcj : j < cats.length := hlen ▸ hj
  unfold perform_topic_modeling_from_similarities
  rw [htop, perform_topic_modeling_pick_cons,
    List.getElem?_eq_getElem hci, List.getElem?_eq_getElem hcj,
    List.getElem?_eq_getElem hi, List.getElem?_eq_getElem hj,
    List.getD_eq_getElem cats "" hci, List.getD_eq_getElem cats "" hcj,
    List.getD_eq_getElem sims 0 hi, List.getD_eq_getElem sims 0 hj]

/-! ## Claim C2 -/

/-- C2: the Topic Matcher returns the best-scoring category alone exactly when its
similarity is strictly greater than 1.1 times the second-best similarity, and otherwise
`"best , second"`; in particular `[0.91, 0.80, 0.50]` over `[A, B, C]` yields `"A"` and
`[0.91, 0.85, 0.50]` yields `"A , B"`. -/
theorem C2_topic_margin_rule :
    (∀ (cats : List String) (sims : List ℚ) (i j : ℕ),
      sims.length = cats.length → 2 ≤ sims.length →
      i < sims.length → j < sims.length → i ≠ j →
      (∀ k, k < sims.length → k ≠ i → sims.getD k 0 < sims.getD i 0) →
      (∀ k, k < sims.length → k ≠ i → k ≠ j → sims.getD k 0 < sims.getD j 0) →
      perform_topic_modeling_from_similarities cats sims =
        (if sims.getD j 0 * (11/10) < sims.getD i 0 then cats.getD i ""
         else cats.getD i "" ++ " , " ++ cats.getD j "")) ∧
    perform_topic_modeling_from_similarities ["A", "B", "C"] [91/100, 80/100, 50/100] = "A" ∧
    perform_topic_modeling_from_similarities ["A", "B", "C"] [91/100, 85/100, 50/100]
      = "A , B" := by
  refine ⟨perform_topic_modeling_margin, ?_, ?_⟩
  · have h := perform_topic_modeling_margin ["A", "B", "C"] [91/100, 80/100, 50/100] 0 1
      rfl (by decide) (by decide) (by decide) (by decide)
      (by
        intro k hk hk0
        have hk3 : k < 3 := hk
        interval_cases k
        · exact absurd rfl hk0
        · show (80/100 : ℚ) < 91/100
          norm_num
        · show (50/100 : ℚ) < 91/100
          norm_num)
      (by
        intro k hk hk0 hk1
        have hk3 : k < 3 := hk
        interval_cases k
        · exact absurd rfl hk0
        · exact absurd rfl hk1
        · show (50/100 : ℚ) < 80/100
          norm_num)
    rw [h, if_pos (show ([91/100, 80/100, 50/100] : List ℚ).getD 1 0 * (11/10) <
      ([91/100, 80/100, 50/100] : List ℚ).getD 0 0 from by
        show (80/100 : ℚ) * (11/10) < 91/100
        norm_num)]
    rfl
  · have h := perform_topic_modeling_margin ["A", "B", "C"] [91/100, 85/100, 50/100] 0 1
      rfl (by decide) (by decide) (by decide) (by decide)
      (by
        intro k hk hk0
        have hk3 : k < 3 := hk
        interval_cases k
        · exact absurd rfl hk0
        · show (85/100 : ℚ) < 91/100
          norm_num
        · show (50/100 : ℚ) < 91/100
          norm_num)
      (by
        intro k hk hk0 hk1
        have hk3 : k < 3 := hk
        interval_cases k
        · exact absurd rfl hk0
        · exact absurd rfl hk1
        · show (50/100 : ℚ) < 85/100
          norm_num)
    rw [h, if_neg (show ¬(([91/100, 85/100, 50/100] : List ℚ).getD 1 0 * (11/10) <
      ([91/100, 85/100, 50/100] : List ℚ).getD 0 0) from by
        show ¬((85/100 : ℚ) * (11/10) < 91/100)
        norm_num)]
    rfl

/-- C2 witness: the general rule applied to the concrete vector `[2, 3]` over `[X, Y]`,
where the best index is 1 and the second-best index is 0 and `3 > 2 * 1.1`. -/
theorem C2_topic_margin_rule_witness :
    perform_topic_modeling_from_similarities ["X", "Y"] [2, 3] = "Y" := by
  have h := C2_topic_margin_rule.1 ["X", "Y"] [2, 3] 1 0
    rfl (by decide) (by decide) (by decide) (by decide)
    (by
      intro k hk hk1
      have hk2 : k < 2 := hk
      interval_cases k
      · show (2 : ℚ) < 3
        norm_num
      · exact absurd rfl hk1)
    (by
      intro k hk hk1 hk0
      have hk2 : k < 2 := hk
      interval_cases k
      · exact absurd rfl hk0
      · exact absurd rfl hk1)
  rw [h, if_pos (show ([2, 3] : List ℚ).getD 0 0 * (11/10) < ([2, 3] : List ℚ).getD 1 0 from by
    show (2 : ℚ) * (11/10) < 3
    norm_num)]
  rfl

/-- Under a per-text embedder the orchestrator loop appends, batch by batch, exactly the
per-keyword results, independently of how the list was chunked. -/
lemma runBatches_perTextEncode {E : Type} (embed : String → E) (cossim : E → E → ℚ)
    (ner : String → Option (List (String × String))) (categories : List String)
    (category_embeddings : List E) (b : ℕ) (hb : 1 ≤ b)
    (hcat : category_embeddings ≠ []) :
    ∀ (fuel : ℕ) (l : List String), l.length ≤ fuel → ∀ acc : ProcessedData,
      runBatches (perTextEncode embed) cossim ner categories category_embeddings
          (chunksOfAux b fuel l) acc =
        { keywords := acc.keywords ++ l,
          intent := acc.intent ++ l.map (fun kw => sort_by_keyword_feature (some kw)),
          nerEntities := acc.nerEntities ++ l.map (nerRowString ner),
          googleContentTopics := acc.googleContentTopics ++
            l.map (topicRowString embed cossim categories category_embeddings) } := by
  intro fuel
  induction fuel with
  | zero =>
    intro l hl acc
    have hnil : l = [] := List.length_eq_zero.mp (Nat.le_zero.mp hl)
    subst hnil
    simp [chunksOfAux, runBatches]
  | succ fuel ih =>
    intro l hl acc
    match l with
    | [] => simp [chunksOfAux, runBatches]
    | x :: xs =>
      have hdrop : ((x :: xs).drop b).length ≤ fuel := by
        simp only [List.length_drop, List.length_cons]
        simp only [List.length_cons] at hl
        omega
      have hcatE : category_embeddings.isEmpty = false := by
        cases category_embeddings with
        | nil => exact absurd rfl hcat
        | cons c cs => rfl
      obtain ⟨b', rfl⟩ : ∃ b', b = b' + 1 := ⟨b - 1, by omega⟩
      have hbatchE : (((x :: xs).take (b' + 1)).map embed).isEmpty = false := by
        simp [List.take_succ_cons]
      simp only [chunksOfAux, runBatches, perTextEncode, hcatE, hbatchE, Bool.or_self,
        Bool.or_false, Bool.false_or]
      rw [if_neg Bool.false_ne_true, ih _ hdrop]
      simp only [ProcessedData.mk.injEq]
      refine ⟨?_, ?_, ?_, ?_⟩
      · rw [List.append_assoc, List.take_append_drop]
      · rw [List.append_assoc, ← List.map_append, List.take_append_drop]
      · rw [List.map_map, List.append_assoc]
        show acc.nerEntities ++
            (List.map (nerRowString ner) (List.take (b' + 1) (x :: xs)) ++
              List.map (nerRowString ner) (List.drop (b' + 1) (x :: xs))) = _
        rw [← List.map_append, List.take_append_drop]
      · rw [List.map_map, List.map_map, List.append_assoc]
        show acc.googleContentTopics ++
            (List.map (topicRowString embed cossim categories category_embeddings)
                (List.take (b' + 1) (x :: xs)) ++
              List.map (topicRowString embed cossim categories category_embeddings)
                (List.drop (b' + 1) (x :: xs))) = _
        rw [← List.map_append, List.take_append_drop]

/-- Normal form of `batch_process_keywords` under a per-text embedder, for a loaded
(non-empty) Taxonomy Store: one row per keyword, in input order, for any batch size at
least 1. -/
lemma batch_process_keywords_perTextEncode {E : Type} (embed : String → E)
    (cossim : E → E → ℚ) (ner : String → Option (List (String × String)))
    (categories : List String) (keywords : List String) (b : ℕ) (hb : 1 ≤ b)
    (hcats : categories ≠ []) :
    batch_process_keywords (some (perTextEncode embed)) cossim ner categories keywords b =
      { keywords := keywords,
        intent := keywords.map (fun kw => sort_by_keyword_feature (some kw)),
        nerEntities := keywords.map (nerRowString ner),
        googleContentTopics := keywords.map (topicRowString embed cossim categories
          (categories.map embed)) } := by
  unfold batch_process_keywords chunksOf
  simp only [perTextEncode, Option.getD_some]
  rw [runBatches_perTextEncode embed cossim ner categories (categories.map embed) b hb
    (fun h => hcats (List.map_eq_nil_iff.mp h))
    keywords.length keywords (le_refl _) ⟨[], [], [], []⟩]
  simp

/-- With an empty Taxonomy Store, `cosine_similarity` (app.py line 203) raises on the
first batch, before any of the four `extend`s, so the run returns the all-empty
collection for every keyword list and batch size. -/
lemma batch_process_keywords_empty_categories {E : Type} (embed : String → E)
    (cossim : E → E → ℚ) (ner : String → Option (List (String × String)))
    (keywords : List String) (b : ℕ) :
    batch_process_keywords (some (perTextEncode embed)) cossim ner [] keywords b =
      ⟨[], [], [], []⟩ := by
  cases keywords with
  | nil => rfl
  | cons x xs => rfl

/-! ## Claim C6 -/

/-- C6: with the Embedder modelled as a deterministic per-text function, the orchestrator
produces exactly the same result collection for every batch size at least 1 as for the
default batch size 8; the batch size never affects output content or order. -/
theorem C6_batch_size_invariance :
    ∀ (E : Type) (embed : String → E) (cossim : E → E → ℚ)
      (ner : String → Option (List (String × String)))
      (categories keywords : List String) (b : ℕ), 1 ≤ b →
      batch_process_keywords (some (perTextEncode embed)) cossim ner categories keywords b =
        batch_process_keywords (some (perTextEncode embed)) cossim ner categories keywords 8 := by
  intro E embed cossim ner categories keywords b hb
  by_cases hcats : categories = []
  · subst hcats
    rw [batch_process_keywords_empty_categories embed cossim ner keywords b,
      batch_process_keywords_empty_categories embed cossim ner keywords 8]
  · rw [batch_process_keywords_perTextEncode embed cossim ner categories keywords b hb hcats,
      batch_process_keywords_perTextEncode embed cossim ner categories keywords 8
        (by norm_num) hcats]

/-- C6 witness: batch sizes 3 and 8 agree on a concrete five-keyword run. -/
theorem C6_batch_size_invariance_witness :
    batch_process_keywords (some (perTextEncode (fun _ : String => (0 : ℚ))))
        (fun _ _ => 0) (fun _ => some []) ["cat"] ["a", "b", "c", "d", "e"] 3 =
      batch_process_keywords (some (perTextEncode (fun _ : String => (0 : ℚ))))
        (fun _ _ => 0) (fun _ => some []) ["cat"] ["a", "b", "c", "d", "e"] 8 :=
  C6_batch_size_invariance ℚ (fun _ => 0) (fun _ _ => 0) (fun _ => some [])
    ["cat"] ["a", "b", "c", "d", "e"] 3 (by norm_num)

/-! ## Claim C7 -/

/-- C7: contrary to the claim (and to spec sections 4.1 and 7c), an empty Taxonomy Store
is run-fatal in the code: `cosine_similarity` (app.py line 203) raises on the empty
category matrix outside the topic matcher's `try`, the outer `except` at line 225 returns
the still-empty dictionary, and the keyword gets no record at all — instead of a record
whose topic field is the `"Error in topic modeling"` sentinel. -/
theorem C7_empty_taxonomy_returns_empty :
    batch_process_keywords (some (perTextEncode (fun _ : String => (0 : ℚ))))
        (fun _ _ => 0) (fun _ => some [("ACME", "organization")]) [] ["acme near me"] 8 =
      ⟨[], [], [], []⟩ ∧
    (batch_process_keywords (some (perTextEncode (fun _ : String => (0 : ℚ))))
        (fun _ _ => 0) (fun _ => some [("ACME", "organization")]) [] ["acme near me"]
        8).googleContentTopics ≠ ["Error in topic modeling"] := by
  refine ⟨rfl, by decide⟩

/-- Index access through `List.map`, stated with defaults. -/
lemma getD_map_of_lt {α β : Type} (f : α → β) (l : List α) (i : ℕ) (hi : i < l.length)
    (dA : α) (dB : β) : (l.map f).getD i dB = f (l.getD i dA) := by
  rw [List.getD_eq_getElem _ _ (by simpa using hi), List.getD_eq_getElem _ _ hi,
    List.getElem_map]

/-! ## Claim C1 -/

set_option maxRecDepth 40000 in
/-- C1 counterexample: on an input whose first line is blank followed by 100 non-empty
lines, the code keeps only 99 keywords (the 100-line cap is applied to raw lines before
blank removal), while the claimed normalization ("first 100 non-empty lines") keeps 100;
the pipeline accordingly produces 99 records, not 100. -/
theorem C1_count_counterexample :
    (normalized_keywords c1_raw_input).length = 99 ∧
    (spec_normalized_keywords c1_raw_input).length = 100 ∧
    (handle_keyword_processing (some (perTextEncode (fun _ : String => (0 : ℚ))))
        (fun _ _ => 0) (fun _ => some []) ["cat"] (some 1) c1_raw_input).map
      (fun r => r.keywords.length) = some 99 := by
  refine ⟨by decide, by decide, by decide⟩

/-- C1 (amended): for every non-empty raw input, and provided the Taxonomy Store is
non-empty (an empty store aborts the run and produces no records at all, see C7), the
pipeline produces exactly one record per line that is non-empty after trimming among the
first 100 raw input lines, in input order (the 100-line truncation precedes blank-line
removal). -/
theorem C1_one_record_per_kept_line :
    ∀ (E : Type) (embed : String → E) (cossim : E → E → ℚ)
      (ner : String → Option (List (String × String))) (categories : List String)
      (n : ℕ) (input : String), categories ≠ [] → input ≠ "" →
      handle_keyword_processing (some (perTextEncode embed)) cossim ner categories
          (some n) input =
        some { keywords := normalized_keywords input,
               intent := (normalized_keywords input).map
                 (fun kw => sort_by_keyword_feature (some kw)),
               nerEntities := (normalized_keywords input).map (nerRowString ner),
               googleContentTopics := (normalized_keywords input).map
                 (topicRowString embed cossim categories (categories.map embed)) } := by
  intro E embed cossim ner categories n input hcats hinput
  unfold handle_keyword_processing
  rw [if_neg (by simp [hinput])]
  rw [batch_process_keywords_perTextEncode embed cossim ner categories
    (normalized_keywords input) 8 (by norm_num) hcats]

/-- C1 witness: the amended theorem applied to a concrete three-line input with one blank
line, producing exactly the two trimmed non-empty keywords. -/
theorem C1_one_record_per_kept_line_witness :
    handle_keyword_processing (some (perTextEncode (fun _ : String => (0 : ℚ))))
        (fun _ _ => 0) (fun _ => some []) ["cat"] (some 1) " best plumber \n\nzzz" =
      some { keywords := ["best plumber", "zzz"],
             intent := ["commercial investigation", "other"],
             nerEntities := ["No specific entities found", "No specific entities found"],
             googleContentTopics := ["Error in topic modeling", "Error in topic modeling"] } := by
  rw [C1_one_record_per_kept_line ℚ (fun _ => 0) (fun _ _ => 0) (fun _ => some [])
    ["cat"] 1 " best plumber \n\nzzz" (by decide) (by decide)]
  decide

/-! ## Claim C8 -/

/-- C8 counterexample: the run whose Embedder fails to load returns the very same value as
a successful run over an empty keyword list (the exception is only logged at app.py line
226), so the failure is not surfaced to the caller and cannot be distinguished from the
result; the taxonomy-failure run returns that same indistinguishable empty value too. -/
theorem C8_counterexample :
    batch_process_keywords (none : Option (List String → Option (List ℚ))) (fun _ _ => 0)
        (fun _ => some []) ["cat"] ["alpha"] 8 =
      batch_process_keywords (some (perTextEncode (fun _ : String => (0 : ℚ))))
        (fun _ _ => 0) (fun _ => some []) ["cat"] [] 8 ∧
    batch_process_keywords (some (perTextEncode (fun _ : String => (0 : ℚ))))
        (fun _ _ => 0) (fun _ => some []) [] ["alpha"] 8 =
      batch_process_keywords (some (perTextEncode (fun _ : String => (0 : ℚ))))
        (fun _ _ => 0) (fun _ => some []) ["cat"] [] 8 := by
  refine ⟨by decide, by decide⟩

/-- C8 (amended): when the Embedder cannot be loaded at all — and likewise when the
Taxonomy Store cannot be loaded, degrading to an empty store that makes the similarity
step raise — the Batch Orchestrator returns an empty result collection, but the failure is
not surfaced: the returned value is identical to that of a successful run over an empty
keyword list. -/
theorem C8_load_failure_returns_empty :
    ∀ (E : Type) (embed : String → E) (cossim : E → E → ℚ)
      (ner : String → Option (List (String × String)))
      (categories keywords : List String) (b : ℕ),
      batch_process_keywords (none : Option (List String → Option (List E))) cossim ner
          categories keywords b = ⟨[], [], [], []⟩ ∧
      batch_process_keywords (some (perTextEncode embed)) cossim ner [] keywords b
        = ⟨[], [], [], []⟩ ∧
      batch_process_keywords (none : Option (List String → Option (List E))) cossim ner
          categories keywords b =
        batch_process_keywords (some (perTextEncode embed)) cossim ner categories [] b := by
  intro E embed cossim ner categories keywords b
  exact ⟨rfl, batch_process_keywords_empty_categories embed cossim ner keywords b, rfl⟩

/-- A keyword whose extraction fails renders the extraction-error sentinel row. -/
lemma nerRowString_of_fail (ner : String → Option (List (String × String))) (kw : String)
    (h : ner kw = none) : nerRowString ner kw = "Error extracting entities" := by
  unfold nerRowString extract_entities
  rw [h]
  rfl

/-! ## Claim C9 -/

/-- C9: when the Entity Extractor fails for exactly one keyword (position `p`), that
keyword's entity field degrades to the error sentinel while every keyword — the other ones
in particular — still receives a complete record with the correct Intent and Topic fields;
the failure never aborts the batch or the run.  Stated for a loaded (non-empty) Taxonomy
Store, since an empty store aborts every run independently of the extractor (see C7). -/
theorem C9_single_extraction_failure_isolated :
    ∀ (E : Type) (embed : String → E) (cossim : E → E → ℚ)
      (ner : String → Option (List (String × String)))
      (categories keywords : List String) (b p : ℕ), 1 ≤ b → categories ≠ [] →
      p < keywords.length → ner (keywords.getD p "") = none →
      (∀ i, i < keywords.length → i ≠ p → ner (keywords.getD i "") ≠ none) →
      (batch_process_keywords (some (perTextEncode embed)) cossim ner categories keywords
          b).keywords = keywords ∧
      (batch_process_keywords (some (perTextEncode embed)) cossim ner categories keywords
          b).intent = keywords.map (fun kw => sort_by_keyword_feature (some kw)) ∧
      (batch_process_keywords (some (perTextEncode embed)) cossim ner categories keywords
          b).googleContentTopics = keywords.map (topicRowString embed cossim categories
            (categories.map embed)) ∧
      (batch_process_keywords (some (perTextEncode embed)) cossim ner categories keywords
          b).nerEntities.getD p "" = "Error extracting entities" ∧
      (∀ i, i < keywords.length → i ≠ p →
        (batch_process_keywords (some (perTextEncode embed)) cossim ner categories keywords
            b).nerEntities.getD i "" = nerRowString ner (keywords.getD i "") ∧
        ner (keywords.getD i "") ≠ none) := by
  intro E embed cossim ner categories keywords b p hb hcats hp hfail hsucc
  rw [batch_process_keywords_perTextEncode embed cossim ner categories keywords b hb hcats]
  refine ⟨rfl, rfl, rfl, ?_, ?_⟩
  · show (keywords.map (nerRowString ner)).getD p "" = _
    rw [getD_map_of_lt (nerRowString ner) keywords p hp ""]
    exact nerRowString_of_fail ner _ hfail
  · intro i hi hip
    refine ⟨?_, hsucc i hi hip⟩
    show (keywords.map (nerRowString ner)).getD i "" = _
    rw [getD_map_of_lt (nerRowString ner) keywords i hi ""]

/-- C9 witness: in the concrete three-keyword run the failing keyword's entity field is
the error sentinel and its neighbour still gets its real entity row. -/
theorem C9_single_extraction_failure_isolated_witness :
    (batch_process_keywords (some (perTextEncode (fun _ : String => ()))) (fun _ _ => 0)
        c9_ner ["cat"] c9_keywords 8).nerEntities.getD 1 "" = "Error extracting entities" ∧
    (batch_process_keywords (some (perTextEncode (fun _ : String => ()))) (fun _ _ => 0)
        c9_ner ["cat"] c9_keywords 8).nerEntities.getD 0 ""
      = nerRowString c9_ner (c9_keywords.getD 0 "") := by
  have h := C9_single_extraction_failure_isolated Unit (fun _ => ()) (fun _ _ => 0) c9_ner
    ["cat"] c9_keywords 8 1 (by norm_num) (by decide) (by decide) (by decide)
    (by decide)
  exact ⟨h.2.2.2.1, (h.2.2.2.2 0 (by decide) (by decide)).1⟩

/-- Column-length invariant of the orchestrator loop, also on the exception path: if the
accumulator is aligned then the result is aligned, and its keyword column extends the
accumulator by a whole number of leading batches. -/
lemma runBatches_column_lengths {E : Type} (encode : List String → Option (List E))
    (cossim : E → E → ℚ) (ner : String → Option (List (String × String)))
    (categories : List String) (category_embeddings : List E)
    (hpres : ∀ l v, encode l = some v → v.length = l.length) :
    ∀ (chunks : List (List String)) (acc : ProcessedData),
      acc.intent.length = acc.keywords.length →
      acc.nerEntities.length = acc.keywords.length →
      acc.googleContentTopics.length = acc.keywords.length →
      (runBatches encode cossim ner categories category_embeddings chunks acc).intent.length
          = (runBatches encode cossim ner categories category_embeddings chunks
              acc).keywords.length ∧
      (runBatches encode cossim ner categories category_embeddings chunks
          acc).nerEntities.length
        = (runBatches encode cossim ner categories category_embeddings chunks
            acc).keywords.length ∧
      (runBatches encode cossim ner categories category_embeddings chunks
          acc).googleContentTopics.length
        = (runBatches encode cossim ner categories category_embeddings chunks
            acc).keywords.length ∧
      ∃ k, (runBatches encode cossim ner categories category_embeddings chunks acc).keywords
          = acc.keywords ++ (chunks.take k).flatten := by
  intro chunks
  induction chunks with
  | nil =>
    intro acc h1 h2 h3
    exact ⟨h1, h2, h3, 0, by simp [runBatches]⟩
  | cons batch rest ih =>
    intro acc h1 h2 h3
    cases henc : encode batch with
    | none =>
      simp only [runBatches, henc]
      exact ⟨h1, h2, h3, 0, by simp⟩
    | some embs =>
      have hlen : embs.length = batch.length := hpres batch embs henc
      simp only [runBatches, henc]
      by_cases hcond : (category_embeddings.isEmpty || embs.isEmpty) = true
      · rw [if_pos hcond]
        exact ⟨h1, h2, h3, 0, by simp⟩
      · rw [if_neg hcond]
        obtain ⟨g1, g2, g3, k, hk⟩ := ih
          { keywords := acc.keywords ++ batch,
            intent := acc.intent ++ batch.map (fun kw => sort_by_keyword_feature (some kw)),
            nerEntities := acc.nerEntities ++ (batch.map (fun kw => extract_entities ner kw)).map
              (fun entity_list => String.intercalate ", " (entity_list.map entityItemString)),
            googleContentTopics := acc.googleContentTopics ++
              (embs.map (fun e => category_embeddings.map (fun ce => cossim e ce))).map
                (fun sim => perform_topic_modeling_from_similarities categories sim) }
          (by simp [h1]) (by simp [h2]) (by simp [h3, hlen])
        refine ⟨g1, g2, g3, k + 1, ?_⟩
        rw [hk]
        simp [List.take_succ_cons, List.flatten_cons, List.append_assoc]

/-! ## Claim C10 -/

/-- C10: for every run — including runs aborted partway by an embedder exception — the
four columns of the result have equal length, and the keyword column consists of a whole
number of leading batches. -/
theorem C10_columns_always_aligned :
    ∀ (E : Type) (load_sentence_model : Option (List String → Option (List E)))
      (cossim : E → E → ℚ) (ner : String → Option (List (String × String)))
      (categories keywords : List String) (b : ℕ),
      (∀ enc, load_sentence_model = some enc → ∀ l v, enc l = some v → v.length = l.length) →
      (batch_process_keywords load_sentence_model cossim ner categories keywords
          b).intent.length
        = (batch_process_keywords load_sentence_model cossim ner categories keywords
            b).keywords.length ∧
      (batch_process_keywords load_sentence_model cossim ner categories keywords
          b).nerEntities.length
        = (batch_process_keywords load_sentence_model cossim ner categories keywords
            b).keywords.length ∧
      (batch_process_keywords load_sentence_model cossim ner categories keywords
          b).googleContentTopics.length
        = (batch_process_keywords load_sentence_model cossim ner categories keywords
            b).keywords.length ∧
      ∃ k, (batch_process_keywords load_sentence_model cossim ner categories keywords
          b).keywords = ((chunksOf b keywords).take k).flatten := by
  intro E load_sentence_model cossim ner categories keywords b hpres
  cases load_sentence_model with
  | none => exact ⟨rfl, rfl, rfl, 0, rfl⟩
  | some enc =>
    unfold batch_process_keywords
    obtain ⟨g1, g2, g3, k, hk⟩ := runBatches_column_lengths enc cossim ner categories
      ((enc categories).getD []) (hpres enc rfl) (chunksOf b keywords) ⟨[], [], [], []⟩
      rfl rfl rfl
    exact ⟨g1, g2, g3, k, by rw [hk]; simp⟩

/-- C10 witness: a run whose embedder raises on the second batch (the one containing
`"BAD"`) still returns four equally long columns made of whole leading batches. -/
theorem C10_columns_always_aligned_witness :
    (batch_process_keywords (some failingEncode) (fun _ _ => 0) (fun _ => some [])
        ["cat"] ["a", "b", "BAD", "d"] 2).intent.length
      = (batch_process_keywords (some failingEncode) (fun _ _ => 0) (fun _ => some [])
          ["cat"] ["a", "b", "BAD", "d"] 2).keywords.length ∧
    (batch_process_keywords (some failingEncode) (fun _ _ => 0) (fun _ => some [])
        ["cat"] ["a", "b", "BAD", "d"] 2).nerEntities.length
      = (batch_process_keywords (some failingEncode) (fun _ _ => 0) (fun _ => some [])
          ["cat"] ["a", "b", "BAD", "d"] 2).keywords.length ∧
    (batch_process_keywords (some failingEncode) (fun _ _ => 0) (fun _ => some [])
        ["cat"] ["a", "b", "BAD", "d"] 2).googleContentTopics.length
      = (batch_process_keywords (some failingEncode) (fun _ _ => 0) (fun _ => some [])
          ["cat"] ["a", "b", "BAD", "d"] 2).keywords.length ∧
    ∃ k, (batch_process_keywords (some failingEncode) (fun _ _ => 0) (fun _ => some [])
        ["cat"] ["a", "b", "BAD", "d"] 2).keywords
      = ((chunksOf 2 ["a", "b", "BAD", "d"]).take k).flatten :=
  C10_columns_always_aligned Unit (some failingEncode) (fun _ _ => 0) (fun _ => some [])
    ["cat"] ["a", "b", "BAD", "d"] 2
    (by
      intro enc henc l v hv
      injection henc with h
      subst h
      unfold failingEncode at hv
      by_cases hc : l.contains "BAD"
      · rw [if_pos hc] at hv
        exact Option.noConfusion hv
      · rw [if_neg hc] at hv
        injection hv with h2
        rw [← h2]
        simp)
